import Mathlib

/-!
Shallow embedding of `src/crate/src/lib.rs` (the photon image crate's core
types): the `PhotonImage` container, the `Rgb` colour value, and the
base64 entry point.  Rust `u8`/`u32` values are embedded as `Nat` (no
arithmetic is performed on them by the embedded operations, so no modular
reduction can arise); `Vec<u8>` becomes `List Nat`.  Methods taking
`&self` are embedded in state-passing style, returning the (unchanged)
receiver alongside the value, so that non-mutation is a provable fact;
methods taking `&mut self` return the updated receiver.  Rust panics are
embedded as an explicit `panicked` outcome.
-/

/-- The error taxonomy of the specification (§7).  Modelled from the spec:
the source under `src/` declares no such type; it is included so that
"fails with `InvalidArgument`" is expressible and comparable with what the
code actually does. -/
inductive CoreError where
  | invalidArgument : CoreError
  | outOfBounds : CoreError
  | sizeMismatch : CoreError
deriving DecidableEq

/-- Outcome of a Rust call: a successful value, a structured error value,
or a panic (abort) carrying the panic message.  `err` is the channel the
spec's policy (§7) demands; the embedded source only ever uses `ok` and
`panicked`. -/
inductive RustOutcome (α : Type) where
  | ok : α → RustOutcome α
  | err : CoreError → RustOutcome α
  | panicked : String → RustOutcome α
deriving DecidableEq

/-- `PhotonImage` (lib.rs lines 78-82): raw RGBA pixels plus dimensions. -/
structure PhotonImage where
  raw_pixels : List Nat
  width : Nat
  height : Nat
deriving DecidableEq

/-- `PhotonImage::new` (lib.rs lines 87-89): stores the three arguments
verbatim; no validation of any kind is performed. -/
def PhotonImage.new (raw_pixels : List Nat) (width : Nat) (height : Nat) :
    PhotonImage :=
  { raw_pixels := raw_pixels, width := width, height := height }

/-- Browser `ImageData` as seen by the embedded source: a width, a height
and a flat byte array.  The source only ever reads these three fields. -/
structure ImageData where
  width : Nat
  height : Nat
  data : List Nat
deriving DecidableEq

/-- Well-formedness of a browser `ImageData` value: the Web platform
guarantees its byte array has length `4 * width * height`.  The source
assumes this of every `ImageData` handed to it. -/
def ImageData.wf (d : ImageData) : Prop :=
  d.data.length = 4 * d.width * d.height

/-- `to_raw_pixels` (lib.rs lines 257-260): `imgdata.data().to_vec()`. -/
def to_raw_pixels (imgdata : ImageData) : List Nat :=
  imgdata.data

/-- `PhotonImage::get_width` (lib.rs lines 109-111), `&self` receiver:
returns `self.width` and leaves the image untouched. -/
def PhotonImage.get_width (img : PhotonImage) : Nat × PhotonImage :=
  (img.width, img)

/-- `PhotonImage::get_raw_pixels` (lib.rs lines 113-115), `&self`
receiver: returns `self.raw_pixels.clone()` (a copy of the list) and
leaves the image untouched. -/
def PhotonImage.get_raw_pixels (img : PhotonImage) : List Nat × PhotonImage :=
  (img.raw_pixels, img)

/-- `PhotonImage::get_height` (lib.rs lines 118-120), `&self` receiver:
returns `self.height` and leaves the image untouched. -/
def PhotonImage.get_height (img : PhotonImage) : Nat × PhotonImage :=
  (img.height, img)

/-- `PhotonImage::set_imgdata` (lib.rs lines 129-136): overwrites all
three fields of the image with the width, height and pixel data of the
supplied `ImageData`. -/
def PhotonImage.set_imgdata (img : PhotonImage) (img_data : ImageData) :
    PhotonImage :=
  { img with
      width := img_data.width,
      height := img_data.height,
      raw_pixels := to_raw_pixels img_data }

/-- The buffer-size invariant the specification states for images (§3, §8):
`len(raw_pixels) = 4 * width * height`. -/
def imgInv (img : PhotonImage) : Prop :=
  img.raw_pixels.length = 4 * img.width * img.height

/-- `Rgb` (lib.rs lines 152-156). -/
structure Rgb where
  r : Nat
  g : Nat
  b : Nat
deriving DecidableEq

/-- `Rgb::new` (lib.rs lines 160-162). -/
def Rgb.new (r : Nat) (g : Nat) (b : Nat) : Rgb :=
  { r := r, g := g, b := b }

/-- `Rgb::set_red` (lib.rs lines 164-166), `&mut self`: returns the
updated value. -/
def Rgb.set_red (c : Rgb) (r : Nat) : Rgb :=
  { c with r := r }

/-- `Rgb::set_green` (lib.rs lines 168-170). -/
def Rgb.set_green (c : Rgb) (g : Nat) : Rgb :=
  { c with g := g }

/-- `Rgb::set_blue` (lib.rs lines 172-174). -/
def Rgb.set_blue (c : Rgb) (b : Nat) : Rgb :=
  { c with b := b }

/-- `Rgb::get_red` (lib.rs lines 176-178). -/
def Rgb.get_red (c : Rgb) : Nat :=
  c.r

/-- `Rgb::get_green` (lib.rs lines 180-182). -/
def Rgb.get_green (c : Rgb) : Nat :=
  c.g

/-- `Rgb::get_blue` (lib.rs lines 184-186). -/
def Rgb.get_blue (c : Rgb) : Nat :=
  c.b

/-- `impl From<Vec<u8>> for Rgb` (lib.rs lines 189-197): panics with
"Vec length must be equal to 3." when the vector's length is not 3,
otherwise builds `Rgb::new(vec[0], vec[1], vec[2])`.  The `getD` indexing
is in bounds whenever the length guard has passed. -/
def rgb_from_vec (vec : List Nat) : RustOutcome Rgb :=
  if vec.length ≠ 3 then
    .panicked "Vec length must be equal to 3."
  else
    .ok (Rgb.new (vec.getD 0 0) (vec.getD 1 0) (vec.getD 2 0))

/-- Modelled from the spec: the value of one symbol of the RFC 4648
standard base64 alphabet, used by the external `base64::decode`
collaborator (spec §1 treats "base64 glue" as external; §9 notes the
source aborts on malformed base64).  `none` for any character outside the
alphabet. -/
def b64val (c : Char) : Option Nat :=
  if 'A' ≤ c ∧ c ≤ 'Z' then some (c.toNat - 65)
  else if 'a' ≤ c ∧ c ≤ 'z' then some (c.toNat - 71)
  else if '0' ≤ c ∧ c ≤ '9' then some (c.toNat + 4)
  else if c = '+' then some 62
  else if c = '/' then some 63
  else none

/-- Modelled from the spec: RFC 4648 standard (padded) base64 decoding of
a character list, four symbols at a time.  A symbol outside the alphabet
yields `Invalid byte`; a length not a multiple of four yields
`Invalid length`; `=` padding is accepted only in the last group. -/
def b64decode : List Char → Except String (List Nat)
  | [] => .ok []
  | a :: b :: c :: d :: rest =>
    match b64val a, b64val b with
    | some va, some vb =>
      if c = '=' then
        if d = '=' ∧ rest = [] then
          .ok [va * 4 + vb / 16]
        else
          .error "Invalid byte"
      else
        match b64val c with
        | some vc =>
          if d = '=' then
            if rest = [] then
              .ok [va * 4 + vb / 16, vb % 16 * 16 + vc / 4]
            else
              .error "Invalid byte"
          else
            match b64val d with
            | some vd =>
              match b64decode rest with
              | .ok tail =>
                .ok ([va * 4 + vb / 16, vb % 16 * 16 + vc / 4,
                      vc % 4 * 64 + vd] ++ tail)
              | .error e => .error e
            | none => .error "Invalid byte"
        | none => .error "Invalid byte"
    | _, _ => .error "Invalid byte"
  | _ => .error "Invalid length"

/-- Modelled from the spec: the external `base64::decode` collaborator as
a fallible function on strings. -/
def decode (base64 : String) : Except String (List Nat) :=
  b64decode base64.data

/-- `base64_to_vec` (lib.rs lines 280-283): `decode(base64).unwrap()` —
the decoded bytes on success, a panic (Rust's `Result::unwrap` on `Err`)
on any decoding failure.  No structured error is ever returned. -/
def base64_to_vec (base64 : String) : RustOutcome (List Nat) :=
  match decode base64 with
  | .ok vec => .ok vec
  | .error e => .panicked ("called Result.unwrap on an Err value: " ++ e)

/-! # Theorems -/

/-- C1, counterexample.  The claim says `len(raw_pixels) = 4·width·height`
holds after every operation, construction included; but `PhotonImage::new`
performs no check, and constructing with an empty byte vector and
dimensions 1×1 yields an image violating the invariant. -/
theorem photon_new_invariant_fails :
    ¬ imgInv (PhotonImage.new [] 1 1) := by
  simp [imgInv, PhotonImage.new]

/-- C1, amended.  Construction does not establish the invariant, but every
operation of the embedded public interface preserves it: the three read
accessors return the image unchanged, and `set_imgdata` re-establishes the
invariant whenever the `ImageData` it receives is well-formed (as the Web
platform guarantees). -/
theorem photon_ops_preserve_invariant (img : PhotonImage) (d : ImageData)
    (h1 : imgInv img) (h2 : d.wf) :
    imgInv img.get_width.2 ∧ imgInv img.get_height.2 ∧
      imgInv img.get_raw_pixels.2 ∧ imgInv (img.set_imgdata d) := by
  refine ⟨h1, h1, h1, ?_⟩
  simpa [imgInv, PhotonImage.set_imgdata, to_raw_pixels] using h2

/-- C1, witness for the amended theorem at a concrete 1×1 image and a
concrete well-formed `ImageData`. -/
theorem photon_ops_preserve_invariant_inst :
    imgInv (PhotonImage.new [0, 0, 0, 0] 1 1) ∧
      ImageData.wf ⟨1, 1, [0, 0, 0, 0]⟩ ∧
      imgInv ((PhotonImage.new [0, 0, 0, 0] 1 1).set_imgdata
        ⟨1, 1, [0, 0, 0, 0]⟩) :=
  ⟨by simp [imgInv, PhotonImage.new],
   by simp [ImageData.wf],
   (photon_ops_preserve_invariant (PhotonImage.new [0, 0, 0, 0] 1 1)
      ⟨1, 1, [0, 0, 0, 0]⟩ (by simp [imgInv, PhotonImage.new])
      (by simp [ImageData.wf])).2.2.2⟩

/-- C2, counterexample.  The claim says construction checks
`len(bytes) = 4·width·height` and fails with `InvalidArgument` on a
mismatch; but at the mismatched input `([], 1, 1)` (length 0 ≠ 4)
`PhotonImage::new` produces an image rather than failing. -/
theorem photon_new_no_size_check :
    PhotonImage.new [] 1 1 = ⟨[], 1, 1⟩ ∧
      ([] : List Nat).length ≠ 4 * 1 * 1 :=
  ⟨rfl, by simp⟩

/-- C2, amended.  Construction performs no validation: even when the byte
count disagrees with `4·width·height`, `PhotonImage::new` succeeds and
returns the image with exactly the given fields; no `InvalidArgument`
error exists anywhere in the code. -/
theorem photon_new_unchecked (bytes : List Nat) (w h : Nat)
    (hm : bytes.length ≠ 4 * w * h) :
    PhotonImage.new bytes w h = ⟨bytes, w, h⟩ :=
  rfl

/-- C2, witness for the amended theorem at the concrete mismatched input
`([], 1, 1)`. -/
theorem photon_new_unchecked_inst :
    ([] : List Nat).length ≠ 4 * 1 * 1 ∧
      PhotonImage.new [] 1 1 = ⟨[], 1, 1⟩ :=
  ⟨by simp, photon_new_unchecked [] 1 1 (by simp)⟩

/-- C3, counterexample.  At the empty vector (length 0 ≠ 3), `Rgb`
construction panics with the source's message instead of returning the
structured `InvalidArgument` error value the claim requires. -/
theorem rgb_from_vec_panic_not_error :
    rgb_from_vec [] = .panicked "Vec length must be equal to 3." ∧
      rgb_from_vec [] ≠ .err .invalidArgument := by
  refine ⟨rfl, ?_⟩
  simp [rgb_from_vec]

/-- C3, amended.  For every byte sequence whose length is not 3,
constructing an `Rgb` from it panics (aborts) with the message
"Vec length must be equal to 3."; the code has no structured error
channel. -/
theorem rgb_from_vec_wrong_len_panics (vec : List Nat)
    (h : vec.length ≠ 3) :
    rgb_from_vec vec = .panicked "Vec length must be equal to 3." := by
  simp [rgb_from_vec, h]

/-- C3, witness for the amended theorem at the empty vector. -/
theorem rgb_from_vec_wrong_len_panics_inst :
    ([] : List Nat).length ≠ 3 ∧
      rgb_from_vec [] = .panicked "Vec length must be equal to 3." :=
  ⟨by simp, rgb_from_vec_wrong_len_panics [] (by simp)⟩

/-- C4, counterexample.  On the malformed base64 string `"!!!!"` (the
character `!` is outside the base64 alphabet), `base64_to_vec` panics:
it does not return an error result carrying `InvalidArgument` (nor any
other declared error value). -/
theorem base64_to_vec_panics :
    base64_to_vec "!!!!" =
        .panicked "called Result.unwrap on an Err value: Invalid byte" ∧
      base64_to_vec "!!!!" ≠ .err .invalidArgument := by
  exact ⟨rfl, by decide⟩

/-- C4, amended.  Public operations of this code do not all return
structured results: `base64_to_vec` unwraps the decoder's result, so it
returns the decoded bytes when decoding succeeds and panics (rather than
returning one of the declared error values) whenever decoding fails. -/
theorem base64_to_vec_unwraps (s : String) :
    (∀ v, decode s = .ok v → base64_to_vec s = .ok v) ∧
      (∀ e, decode s = .error e →
        base64_to_vec s =
          .panicked ("called Result.unwrap on an Err value: " ++ e)) := by
  constructor <;> intro x hx <;> simp [base64_to_vec, hx]

/-- C4, witness for the amended theorem: the success branch at `"AAAA"`
and the panicking branch at `"!!!!"`. -/
theorem base64_to_vec_unwraps_inst :
    base64_to_vec "AAAA" = .ok [0, 0, 0] ∧
      base64_to_vec "!!!!" =
        .panicked "called Result.unwrap on an Err value: Invalid byte" :=
  ⟨(base64_to_vec_unwraps "AAAA").1 [0, 0, 0] rfl,
   (base64_to_vec_unwraps "!!!!").2 "Invalid byte" rfl⟩

/-- C5, counterexample.  `set_imgdata` changes the width field: starting
from a 1×1 image, supplying an `ImageData` of width 2 produces width 2,
so width is not immutable under the public interface. -/
theorem set_imgdata_changes_width :
    ((PhotonImage.new [0, 0, 0, 0] 1 1).set_imgdata
        ⟨2, 1, [0, 0, 0, 0, 0, 0, 0, 0]⟩).width = 2 ∧
      (PhotonImage.new [0, 0, 0, 0] 1 1).width = 1 :=
  ⟨rfl, rfl⟩

/-- C5, amended.  The read accessors leave the image (hence its width and
height) unchanged, but `set_imgdata` overwrites width and height with the
dimensions of the supplied `ImageData`: the dimensions are mutable through
`set_imgdata`. -/
theorem dims_fixed_except_set_imgdata (img : PhotonImage) (d : ImageData) :
    img.get_width.2 = img ∧ img.get_height.2 = img ∧
      img.get_raw_pixels.2 = img ∧
      (img.set_imgdata d).width = d.width ∧
      (img.set_imgdata d).height = d.height :=
  ⟨rfl, rfl, rfl, rfl, rfl⟩

/-- C7.  Construction/accessor round-trip: reading back a freshly
constructed image returns exactly the constructed width, height and byte
vector, and each accessor leaves the image unchanged. -/
theorem photon_new_accessor_roundtrip (bytes : List Nat) (w h : Nat) :
    (PhotonImage.new bytes w h).get_width = (w, PhotonImage.new bytes w h) ∧
      (PhotonImage.new bytes w h).get_height =
        (h, PhotonImage.new bytes w h) ∧
      (PhotonImage.new bytes w h).get_raw_pixels =
        (bytes, PhotonImage.new bytes w h) :=
  ⟨rfl, rfl, rfl⟩

/-- C8.  For every vector of length 3 — i.e. every `[a, b, c]` —
constructing an `Rgb` succeeds (the panic branch is not taken) and the
components are the vector's elements in order. -/
theorem rgb_from_vec_len_three (a b c : Nat) :
    rgb_from_vec [a, b, c] = .ok (Rgb.new a b c) :=
  rfl

/-- C9.  Getter/setter correctness of `Rgb`: the getters return the
constructor's arguments, and each getter returns the value just written by
the matching setter. -/
theorem rgb_getters_setters (r g b v : Nat) (c : Rgb) :
    (Rgb.new r g b).get_red = r ∧ (Rgb.new r g b).get_green = g ∧
      (Rgb.new r g b).get_blue = b ∧
      (c.set_red v).get_red = v ∧ (c.set_green v).get_green = v ∧
      (c.set_blue v).get_blue = v :=
  ⟨rfl, rfl, rfl, rfl, rfl, rfl⟩

/-- C10.  Each `Rgb` setter modifies only its own channel: the other two
channels read back unchanged. -/
theorem rgb_setters_frame (c : Rgb) (v : Nat) :
    (c.set_red v).get_green = c.get_green ∧
      (c.set_red v).get_blue = c.get_blue ∧
      (c.set_green v).get_red = c.get_red ∧
      (c.set_green v).get_blue = c.get_blue ∧
      (c.set_blue v).get_red = c.get_red ∧
      (c.set_blue v).get_green = c.get_green :=
  ⟨rfl, rfl, rfl, rfl, rfl, rfl⟩
